import Mathlib

/-!
Shallow embedding of payu's experiment-branch module (`payu/branch.py`):
branch checkout/clone orchestration, work/archive symlink switching,
configuration-file checks, restart injection and branch listing.

Filesystem state is a map from paths to entries (directory, regular file,
or symbolic link).  `Path.exists()` and `Path.is_dir()` follow symbolic
links, with the kernel's loop limit modelled as a fuel bound; `unlink` and
`symlink_to` act on the entry itself.  External collaborators that live in
other modules of the repository (git operations, ruamel YAML, the Metadata
and Laboratory entities) are modelled from the spec and marked as such.
-/

set_option autoImplicit false

namespace PayuBranch

/-- A filesystem path, as a list of name components. -/
abbrev FsPath := List String

/-- A filesystem entry: directory, regular file, or symbolic link. -/
inductive Entry where
  | dir : Entry
  | file : Entry
  | symlink (target : FsPath) : Entry
  deriving DecidableEq, Repr

/-- Filesystem state: which entry (if any) sits at each path. -/
abbrev FS := FsPath → Option Entry

/-- Point update of a filesystem (`none` deletes the entry). -/
def fsUpdate (fs : FS) (p : FsPath) (v : Option Entry) : FS :=
  fun q => if q = p then v else fs q

/-- Linux follows at most 40 nested symbolic links before ELOOP;
`Path.exists()` returns `False` on any `OSError`, ELOOP included. -/
def maxSymlinkDepth : Nat := 40

/-- Resolve the entry at `p`, following symbolic links with the given fuel.
Exhausted fuel (a link loop or over-deep chain) yields `none`, matching
`os.stat` raising ELOOP and `Path.exists()` reporting `False`. -/
def resolveEntry (fs : FS) : Nat → FsPath → Option Entry
  | 0, _ => none
  | n + 1, p =>
    match fs p with
    | some (Entry.symlink t) => resolveEntry fs n t
    | e => e

/-- `Path.exists()`: the path resolves (through symlinks) to an entry. -/
def fsExists (fs : FS) (p : FsPath) : Bool :=
  (resolveEntry fs maxSymlinkDepth p).isSome

/-- `Path.is_dir()`: the path resolves (through symlinks) to a directory. -/
def fsIsDir (fs : FS) (p : FsPath) : Bool :=
  match resolveEntry fs maxSymlinkDepth p with
  | some Entry.dir => true
  | _ => false

/-- Errors raised by the filesystem calls used in `switch_symlink`. -/
inductive FsError where
  | isADirectory : FsError
  | fileNotFound : FsError
  | fileExistsErr : FsError
  deriving DecidableEq, Repr

/-- Outcome of a `switch_symlink` call: normal return or a raised OSError,
in both cases together with the filesystem state at that point. -/
inductive SwitchOutcome where
  | ok (fs : FS) : SwitchOutcome
  | err (e : FsError) (fs : FS) : SwitchOutcome

/-- The filesystem state carried by an outcome. -/
def SwitchOutcome.state : SwitchOutcome → FS
  | .ok fs => fs
  | .err _ fs => fs

/-- Whether the call returned normally. -/
def SwitchOutcome.isOk : SwitchOutcome → Bool
  | .ok _ => true
  | .err _ _ => false

/-- Removal phase of `switch_symlink` (branch.py lines 157-161):
`if sym_path.exists() and sym_path.is_symlink:` — note the source refers to
`is_symlink` without calling it, so the second conjunct is a bound method
object, which is always truthy; the guard is effectively `sym_path.exists()`
alone.  `sym_path.unlink()` removes the entry itself (raising
IsADirectoryError on a directory); the `sym_path.resolve()` result feeds
only the audit print. -/
def removePhase (fs : FS) (symPath : FsPath) : SwitchOutcome :=
  if fsExists fs symPath && true then
    match fs symPath with
    | some Entry.dir => .err FsError.isADirectory fs
    | some Entry.file => .ok (fsUpdate fs symPath none)
    | some (Entry.symlink _) => .ok (fsUpdate fs symPath none)
    | none => .err FsError.fileNotFound fs
  else
    .ok fs

/-- Creation phase of `switch_symlink` (branch.py lines 163-166):
`if dir_path.exists(): sym_path.symlink_to(dir_path)`.  `symlink_to`
raises FileExistsError when any entry — a dangling symlink included —
already occupies `sym_path`. -/
def createPhase (fs : FS) (symPath dirPath : FsPath) : SwitchOutcome :=
  if fsExists fs dirPath then
    match fs symPath with
    | some _ => .err FsError.fileExistsErr fs
    | none => .ok (fsUpdate fs symPath (some (Entry.symlink dirPath)))
  else
    .ok fs

/-- `switch_symlink(lab_dir_path, control_path, experiment_name, sym_dir)`
(branch.py lines 150-166): remove any resolvable entry at
`control_path/sym_dir`, then link it to `lab_dir_path/experiment_name`
when that directory exists. -/
def switch_symlink (fs : FS) (lab_dir_path control_path : FsPath)
    (experiment_name sym_dir : String) : SwitchOutcome :=
  -- dir_path = lab_dir_path / experiment_name,
  -- sym_path = control_path / sym_dir
  match removePhase fs (control_path ++ [sym_dir]) with
  | .err e s => .err e s
  | .ok fs1 =>
    createPhase fs1 (control_path ++ [sym_dir]) (lab_dir_path ++ [experiment_name])

/-! Basic lemmas about the filesystem model. -/

theorem fsUpdate_self (fs : FS) (p : FsPath) (v : Option Entry) :
    fsUpdate fs p v p = v := by
  simp [fsUpdate]

theorem fsUpdate_ne (fs : FS) (p : FsPath) (v : Option Entry) {q : FsPath}
    (h : q ≠ p) : fsUpdate fs p v q = fs q := by
  simp [fsUpdate, h]

theorem resolveEntry_entry_none {fs : FS} {p : FsPath} (h : fs p = none) :
    ∀ n, resolveEntry fs n p = none
  | 0 => rfl
  | n + 1 => by simp [resolveEntry, h]

/-- One definitional unfolding of `resolveEntry` at the full fuel. -/
theorem resolveEntry_max (fs : FS) (p : FsPath) :
    resolveEntry fs maxSymlinkDepth p =
      match fs p with
      | some (Entry.symlink t) => resolveEntry fs 39 t
      | e => e := rfl

theorem fsExists_of_dir {fs : FS} {p : FsPath} (h : fs p = some Entry.dir) :
    fsExists fs p = true := by
  unfold fsExists
  rw [resolveEntry_max, h]
  rfl

theorem fsExists_of_file {fs : FS} {p : FsPath} (h : fs p = some Entry.file) :
    fsExists fs p = true := by
  unfold fsExists
  rw [resolveEntry_max, h]
  rfl

theorem fsExists_of_entry_none {fs : FS} {p : FsPath} (h : fs p = none) :
    fsExists fs p = false := by
  unfold fsExists
  rw [resolveEntry_entry_none h]
  rfl

theorem entry_some_of_fsExists {fs : FS} {p : FsPath}
    (h : fsExists fs p = true) : fs p ≠ none := by
  intro hn
  rw [fsExists_of_entry_none hn] at h
  exact Bool.false_ne_true h

/-- Resolution results survive an update at a path that held no entry:
any successful resolution chain never passes through such a path. -/
theorem resolveEntry_update_some {fs : FS} {q : FsPath} (hq : fs q = none)
    (v : Option Entry) :
    ∀ n (p : FsPath) (e : Entry), resolveEntry fs n p = some e →
      resolveEntry (fsUpdate fs q v) n p = some e := by
  intro n
  induction n with
  | zero => intro p e h; simp [resolveEntry] at h
  | succ n ih =>
    intro p e h
    by_cases hpq : p = q
    · subst hpq
      simp [resolveEntry, hq] at h
    · rw [resolveEntry] at h ⊢
      rw [fsUpdate_ne fs q v hpq]
      cases hfp : fs p with
      | none => rw [hfp] at h; exact absurd h (by simp)
      | some en =>
        rw [hfp] at h
        cases en with
        | dir => exact h
        | file => exact h
        | symlink t => exact ih t e h

theorem fsExists_update_of_exists {fs : FS} {q : FsPath} (hq : fs q = none)
    (v : Option Entry) {p : FsPath} (h : fsExists fs p = true) :
    fsExists (fsUpdate fs q v) p = true := by
  unfold fsExists at h ⊢
  cases hres : resolveEntry fs maxSymlinkDepth p with
  | none => rw [hres] at h; exact absurd h (by simp)
  | some e =>
    rw [resolveEntry_update_some hq v maxSymlinkDepth p e hres]
    rfl

theorem fsUpdate_cancel {fs : FS} {q : FsPath} (hq : fs q = none)
    (v : Option Entry) : fsUpdate (fsUpdate fs q v) q none = fs := by
  funext p
  by_cases hpq : p = q
  · subst hpq; simp [fsUpdate, hq]
  · simp [fsUpdate, hpq]

/-! Lemmas about the two phases of `switch_symlink`. -/

theorem removePhase_guard_false {fs : FS} {sp : FsPath}
    (h : fsExists fs sp = false) : removePhase fs sp = .ok fs := by
  simp [removePhase, h]

theorem removePhase_err_state {fs : FS} {sp : FsPath} {e : FsError} {s : FS}
    (h : removePhase fs sp = .err e s) : s = fs := by
  unfold removePhase at h
  split at h
  · split at h <;> simp_all
  · simp at h

/-- Characterization of a normally-returning removal phase. -/
theorem removePhase_ok_cases {fs : FS} {sp : FsPath} {fs1 : FS}
    (h : removePhase fs sp = .ok fs1) :
    (fsExists fs sp = false ∧ fs1 = fs)
    ∨ (fsExists fs sp = true
        ∧ (fs sp = some Entry.file ∨ ∃ t, fs sp = some (Entry.symlink t))
        ∧ fs1 = fsUpdate fs sp none) := by
  unfold removePhase at h
  by_cases hg : fsExists fs sp
  · right
    rw [hg] at h
    simp only [Bool.true_and, if_pos] at h
    cases hfp : fs sp with
    | none => rw [hfp] at h; exact absurd h (by simp)
    | some en =>
      rw [hfp] at h
      cases en with
      | dir => exact absurd h (by simp)
      | file => exact ⟨hg, Or.inl rfl, by injection h with h2; exact h2.symm⟩
      | symlink t =>
        exact ⟨hg, Or.inr ⟨t, rfl⟩, by injection h with h2; exact h2.symm⟩
  · left
    rw [Bool.not_eq_true] at hg
    rw [hg] at h
    simp only [Bool.false_and, if_neg, Bool.false_eq_true, not_false_iff] at h
    exact ⟨hg, by injection h with h2; exact h2.symm⟩

/-- After a normally-returning removal phase, the link path no longer
resolves. -/
theorem removePhase_ok_noexists {fs : FS} {sp : FsPath} {fs1 : FS}
    (h : removePhase fs sp = .ok fs1) : fsExists fs1 sp = false := by
  rcases removePhase_ok_cases h with ⟨hg, rfl⟩ | ⟨_, _, rfl⟩
  · exact hg
  · exact fsExists_of_entry_none (fsUpdate_self fs sp none)

/-! Further equation lemmas for `switch_symlink` and its phases. -/

theorem switch_symlink_remove_err {fs s : FS} {L C : FsPath} {E k : String}
    {e : FsError} (h : removePhase fs (C ++ [k]) = .err e s) :
    switch_symlink fs L C E k = .err e s := by
  unfold switch_symlink
  rw [h]

theorem switch_symlink_remove_ok {fs fs1 : FS} {L C : FsPath} {E k : String}
    (h : removePhase fs (C ++ [k]) = .ok fs1) :
    switch_symlink fs L C E k = createPhase fs1 (C ++ [k]) (L ++ [E]) := by
  unfold switch_symlink
  rw [h]

theorem removePhase_removes_file {fs : FS} {sp : FsPath}
    (h : fs sp = some Entry.file) :
    removePhase fs sp = .ok (fsUpdate fs sp none) := by
  simp [removePhase, fsExists_of_file h, h]

theorem removePhase_removes_symlink {fs : FS} {sp : FsPath} {t : FsPath}
    (hg : fsExists fs sp = true) (h : fs sp = some (Entry.symlink t)) :
    removePhase fs sp = .ok (fsUpdate fs sp none) := by
  simp [removePhase, hg, h]

theorem createPhase_noexist {fs : FS} {sp dp : FsPath}
    (h : fsExists fs dp = false) : createPhase fs sp dp = .ok fs := by
  simp [createPhase, h]

theorem createPhase_occupied {fs : FS} {sp dp : FsPath} {e0 : Entry}
    (hd : fsExists fs dp = true) (h : fs sp = some e0) :
    createPhase fs sp dp = .err .fileExistsErr fs := by
  simp [createPhase, hd, h]

theorem createPhase_create {fs : FS} {sp dp : FsPath}
    (hd : fsExists fs dp = true) (h : fs sp = none) :
    createPhase fs sp dp = .ok (fsUpdate fs sp (some (Entry.symlink dp))) := by
  simp [createPhase, hd, h]

/-! Claim C1: the behaviour of `switch_symlink` over prior link states. -/

/-- The property claimed of `switch_symlink`: after a normal return, the
link holds a symlink to the experiment directory iff that directory
existed at call time, and otherwise the link path holds nothing,
regardless of its prior state. -/
def c1ClaimedSpec (fs : FS) (L C : FsPath) (E k : String) : Prop :=
  ∀ fs', switch_symlink fs L C E k = SwitchOutcome.ok fs' →
    if fsExists fs (L ++ [E]) = true then
      fs' (C ++ [k]) = some (Entry.symlink (L ++ [E]))
    else
      fs' (C ++ [k]) = none

/-- A control directory whose `work` entry is a dangling symlink. -/
def fsDangling : FS :=
  fun p => if p = ["ctrl", "work"] then some (Entry.symlink ["ghost"]) else none

/-- Claim C1 is false on the code: with a dangling symlink at
`ctrl/work` and no experiment directory, `switch_symlink` returns
normally yet leaves the dangling symlink in place — `sym_path.exists()`
follows the link and reports `False`, so the removal guard never fires. -/
theorem c1_dangling_symlink_counterexample :
    ¬ c1ClaimedSpec fsDangling ["lab"] ["ctrl"] "exp1" "work" := by
  intro h
  have hb : fsExists fsDangling (["ctrl"] ++ ["work"]) = false := by decide
  have hd : fsExists fsDangling (["lab"] ++ ["exp1"]) = false := by decide
  have hrun : switch_symlink fsDangling ["lab"] ["ctrl"] "exp1" "work"
      = SwitchOutcome.ok fsDangling := by
    rw [switch_symlink_remove_ok (removePhase_guard_false hb)]
    exact createPhase_noexist hd
  have h2 := h fsDangling hrun
  rw [if_neg (by rw [hd]; exact Bool.false_ne_true)] at h2
  exact absurd h2 (by decide)

/-- Claim C1 as amended: on a normal return the claimed iff holds except
that a prior entry which `Path.exists()` does not resolve (a dangling
symlink) is never removed and is left in place.  The experiment directory
is assumed to be a plain directory or absent, as the claim's own wording
has it. -/
theorem c1_amended_switch_symlink (fs : FS) (L C : FsPath) (E k : String)
    (h1 : fs (L ++ [E]) = some Entry.dir ∨ fs (L ++ [E]) = none) (fs' : FS)
    (hok : switch_symlink fs L C E k = SwitchOutcome.ok fs') :
    ((fs (L ++ [E])).isSome = true →
       fs' (C ++ [k]) = some (Entry.symlink (L ++ [E])))
    ∧ (fs (L ++ [E]) = none →
        (fsExists fs (C ++ [k]) = true → fs' (C ++ [k]) = none)
        ∧ (fsExists fs (C ++ [k]) = false → fs' (C ++ [k]) = fs (C ++ [k]))) := by
  cases hr : removePhase fs (C ++ [k]) with
  | err e s =>
    rw [switch_symlink_remove_err hr] at hok
    exact absurd hok (by simp)
  | ok fs1 =>
    rw [switch_symlink_remove_ok hr] at hok
    constructor
    · -- the experiment directory exists: the link must have been created
      intro hdir
      have hdp : fs (L ++ [E]) = some Entry.dir := by
        rcases h1 with h1 | h1
        · exact h1
        · rw [h1] at hdir; exact absurd hdir (by simp)
      rcases removePhase_ok_cases hr with ⟨hg, h1e⟩ | ⟨hg, hentry, h1e⟩
      · -- no removal: the prior entry must have been absent, else
        -- symlink_to would have raised
        rw [h1e] at hok
        have hex : fsExists fs (L ++ [E]) = true := fsExists_of_dir hdp
        cases hsp : fs (C ++ [k]) with
        | some e0 =>
          rw [createPhase_occupied hex hsp] at hok
          exact absurd hok (by simp)
        | none =>
          rw [createPhase_create hex hsp] at hok
          injection hok with hok
          rw [← hok, fsUpdate_self]
      · -- a resolvable entry was removed; then the link was created
        rw [h1e] at hok
        have hne : ¬ (L ++ [E]) = (C ++ [k]) := by
          intro hEq
          rcases hentry with hf | ⟨t, ht⟩
          · rw [hEq, hf] at hdp; exact absurd hdp (by simp)
          · rw [hEq, ht] at hdp; exact absurd hdp (by simp)
        have hdp1 : fsUpdate fs (C ++ [k]) none (L ++ [E]) = some Entry.dir := by
          rw [fsUpdate_ne fs (C ++ [k]) none hne]; exact hdp
        rw [createPhase_create (fsExists_of_dir hdp1)
          (fsUpdate_self fs (C ++ [k]) none)] at hok
        injection hok with hok
        rw [← hok, fsUpdate_self]
    · -- the experiment directory is absent: nothing is created
      intro hnone
      constructor
      · -- a resolvable prior entry was removed and nothing replaced it
        intro hx
        rcases removePhase_ok_cases hr with ⟨hg, h1e⟩ | ⟨hg, hentry, h1e⟩
        · rw [hx] at hg; exact absurd hg (by simp)
        · rw [h1e] at hok
          have hdp1 : fsUpdate fs (C ++ [k]) none (L ++ [E]) = none := by
            by_cases hEq : (L ++ [E]) = (C ++ [k])
            · rw [hEq, fsUpdate_self]
            · rw [fsUpdate_ne fs (C ++ [k]) none hEq]; exact hnone
          rw [createPhase_noexist (fsExists_of_entry_none hdp1)] at hok
          injection hok with hok
          rw [← hok, fsUpdate_self]
      · -- an unresolvable prior entry (dangling link) is left in place
        intro hx
        rcases removePhase_ok_cases hr with ⟨hg, h1e⟩ | ⟨hg, hentry, h1e⟩
        · rw [h1e] at hok
          rw [createPhase_noexist (fsExists_of_entry_none hnone)] at hok
          injection hok with hok
          rw [← hok]
        · rw [hx] at hg; exact absurd hg (by simp)

/-- A laboratory that already contains the experiment directory. -/
def fsWithExpDir : FS :=
  fun p => if p = ["lab", "exp1"] then some Entry.dir else none

/-- Concrete instance of the amended claim C1: on a filesystem holding the
experiment directory and an empty control directory, the `work` link is
created and points at the experiment directory. -/
theorem c1_amended_switch_symlink_witness :
    (switch_symlink fsWithExpDir ["lab"] ["ctrl"] "exp1" "work").state
        (["ctrl"] ++ ["work"]) = some (Entry.symlink (["lab"] ++ ["exp1"])) := by
  have hok : switch_symlink fsWithExpDir ["lab"] ["ctrl"] "exp1" "work"
      = SwitchOutcome.ok
          ((switch_symlink fsWithExpDir ["lab"] ["ctrl"] "exp1" "work").state) := rfl
  exact (c1_amended_switch_symlink fsWithExpDir ["lab"] ["ctrl"] "exp1" "work"
    (Or.inl (by decide)) _ hok).1 (by decide)

/-! Claim C6: idempotence of `switch_symlink`. -/

/-- Claim C6: running `switch_symlink` a second time with identical
arguments from the state the first run left behind (normal return or
raise) leaves that state unchanged. -/
theorem c6_switch_symlink_idempotent (fs : FS) (L C : FsPath) (E k : String) :
    (switch_symlink ((switch_symlink fs L C E k).state) L C E k).state
      = (switch_symlink fs L C E k).state := by
  cases hr : removePhase fs (C ++ [k]) with
  | err e s =>
    have hs : s = fs := removePhase_err_state hr
    subst hs
    rw [switch_symlink_remove_err hr]
    simp only [SwitchOutcome.state]
    rw [switch_symlink_remove_err hr]
  | ok fs1 =>
    rw [switch_symlink_remove_ok hr]
    have hs1 : fsExists fs1 (C ++ [k]) = false := removePhase_ok_noexists hr
    cases hd : fsExists fs1 (L ++ [E]) with
    | false =>
      rw [createPhase_noexist hd]
      simp only [SwitchOutcome.state]
      rw [switch_symlink_remove_ok (removePhase_guard_false hs1),
        createPhase_noexist hd]
    | true =>
      cases hm : fs1 (C ++ [k]) with
      | some e0 =>
        rw [createPhase_occupied hd hm]
        simp only [SwitchOutcome.state]
        rw [switch_symlink_remove_ok (removePhase_guard_false hs1),
          createPhase_occupied hd hm]
      | none =>
        rw [createPhase_create hd hm]
        simp only [SwitchOutcome.state]
        -- the first run created the link
        cases hg2 : fsExists (fsUpdate fs1 (C ++ [k])
            (some (Entry.symlink (L ++ [E])))) (C ++ [k]) with
        | true =>
          -- second run removes the fresh link and recreates it
          rw [switch_symlink_remove_ok (removePhase_removes_symlink hg2
            (fsUpdate_self fs1 (C ++ [k]) (some (Entry.symlink (L ++ [E]))))),
            fsUpdate_cancel hm (some (Entry.symlink (L ++ [E]))),
            createPhase_create hd hm]
        | false =>
          -- the fresh link does not resolve within the fuel bound: the
          -- second run removes nothing and symlink_to raises, mutating
          -- nothing
          rw [switch_symlink_remove_ok (removePhase_guard_false hg2),
            createPhase_occupied (fsExists_update_of_exists hm _ hd)
              (fsUpdate_self fs1 (C ++ [k]) (some (Entry.symlink (L ++ [E]))))]

/-! Claim C10: a regular file occupying the link name is removed. -/

/-- Claim C10: when a regular file (not a symlink) occupies
`control_path/sym_dir`, the removal phase unlinks it anyway — the
`is_symlink` guard, being an uncalled bound method, restricts nothing —
and the call returns normally with the file gone. -/
theorem c10_regular_file_is_unlinked (fs : FS) (L C : FsPath) (E k : String)
    (h : fs (C ++ [k]) = some Entry.file) :
    (switch_symlink fs L C E k).isOk = true
    ∧ (switch_symlink fs L C E k).state (C ++ [k]) ≠ some Entry.file
    ∧ ((switch_symlink fs L C E k).state (C ++ [k]) = none
       ∨ (switch_symlink fs L C E k).state (C ++ [k])
           = some (Entry.symlink (L ++ [E]))) := by
  rw [switch_symlink_remove_ok (removePhase_removes_file h)]
  cases hd : fsExists (fsUpdate fs (C ++ [k]) none) (L ++ [E]) with
  | false =>
    rw [createPhase_noexist hd]
    simp [SwitchOutcome.isOk, SwitchOutcome.state, fsUpdate_self]
  | true =>
    rw [createPhase_create hd (fsUpdate_self fs (C ++ [k]) none)]
    simp [SwitchOutcome.isOk, SwitchOutcome.state, fsUpdate_self]

/-- A control directory whose `work` entry is a regular file, with the
experiment directory present in the laboratory. -/
def fsWithWorkFile : FS :=
  fun p =>
    if p = ["ctrl", "work"] then some Entry.file
    else if p = ["lab", "exp1"] then some Entry.dir
    else none

/-- Concrete instance of claim C10: the regular file at `ctrl/work` is
silently deleted and replaced by the new symlink. -/
theorem c10_regular_file_is_unlinked_witness :
    (switch_symlink fsWithWorkFile ["lab"] ["ctrl"] "exp1" "work").isOk = true
    ∧ (switch_symlink fsWithWorkFile ["lab"] ["ctrl"] "exp1" "work").state
        (["ctrl"] ++ ["work"]) ≠ some Entry.file
    ∧ ((switch_symlink fsWithWorkFile ["lab"] ["ctrl"] "exp1" "work").state
        (["ctrl"] ++ ["work"]) = none
       ∨ (switch_symlink fsWithWorkFile ["lab"] ["ctrl"] "exp1" "work").state
        (["ctrl"] ++ ["work"]) = some (Entry.symlink (["lab"] ++ ["exp1"]))) :=
  c10_regular_file_is_unlinked fsWithWorkFile ["lab"] ["ctrl"] "exp1" "work"
    (by decide)

/-! Configuration-file check (`check_config_path`, branch.py lines 72-82). -/

/-- Default configuration filename (`DEFAULT_CONFIG_FNAME` from
`payu.fsops`, a cross-component constant named in the spec). -/
def DEFAULT_CONFIG_FNAME : String := "config.yaml"

/-- The multi-line remediation message printed when no configuration file
is found on the checked-out branch (branch.py lines 25-36). -/
def NO_CONFIG_FOUND_MESSAGE : String :=
  "No configuration file found on this branch.\n" ++
  "Skipping adding new metadata file and creating archive/work symlinks.\n" ++
  "\n" ++
  "To try find a branch that has config file, you can:\n" ++
  "    - Display local branches by running:\n" ++
  "        payu branch\n" ++
  "    - Or display remote branches by running:\n" ++
  "        payu branch --remote\n" ++
  "\n" ++
  "To checkout an existing branch, run:\n" ++
  "    payu checkout BRANCH_NAME\n" ++
  "Where BRANCH_NAME is the name of the branch"

/-- Path rendered as a string for messages. -/
def pathToString (p : FsPath) : String :=
  String.intercalate "/" p

/-- The path `check_config_path` ends up testing: the explicit argument,
or the default filename in the current directory when absent. -/
def resolvedConfigPath (config_path : Option FsPath) : FsPath :=
  match config_path with
  | none => [DEFAULT_CONFIG_FNAME]
  | some p => p

/-- `check_config_path(config_path)` (branch.py lines 72-82).  When no
path is given it defaults to `DEFAULT_CONFIG_FNAME` (the result of
`config_path.resolve()` on line 76 is discarded by the source).  The
condition on line 78 is `not config_path.exists() or not
config_path.is_file` — `is_file` is referenced without being called, so
it is a bound method object, always truthy, and the second disjunct is
always `False`.  Returns the printed lines together with either the
`FileNotFoundError` message or the checked path. -/
def check_config_path (fs : FS) (config_path : Option FsPath) :
    List String × Except String FsPath :=
  if !(fsExists fs (resolvedConfigPath config_path)) || !true then
    ([NO_CONFIG_FOUND_MESSAGE],
     .error ("Configuration file " ++ pathToString (resolvedConfigPath config_path)
       ++ " not found"))
  else
    ([], .ok (resolvedConfigPath config_path))

theorem check_config_path_fail {fs : FS} {config_path : Option FsPath}
    (h : fsExists fs (resolvedConfigPath config_path) = false) :
    check_config_path fs config_path
      = ([NO_CONFIG_FOUND_MESSAGE],
         .error ("Configuration file "
           ++ pathToString (resolvedConfigPath config_path) ++ " not found")) := by
  simp [check_config_path, h]

theorem check_config_path_ok {fs : FS} {config_path : Option FsPath}
    (h : fsExists fs (resolvedConfigPath config_path) = true) :
    check_config_path fs config_path = ([], .ok (resolvedConfigPath config_path)) := by
  simp [check_config_path, h]

/-- A current directory in which `config.yaml` exists but is a directory,
not a regular file. -/
def fsConfigIsDir : FS :=
  fun p => if p = [DEFAULT_CONFIG_FNAME] then some Entry.dir else none

/-- Claim C7 names a bug in the code: with `config.yaml` an existing
directory — not a regular file — `check_config_path` accepts the path and
returns it without printing or raising, because `config_path.is_file` is
never called; the claim (and the evident intent) says this must raise the
ConfigNotFound condition. -/
theorem c7_directory_config_accepted :
    fsConfigIsDir [DEFAULT_CONFIG_FNAME] = some Entry.dir
    ∧ fsIsDir fsConfigIsDir [DEFAULT_CONFIG_FNAME] = true
    ∧ check_config_path fsConfigIsDir none
        = ([], Except.ok [DEFAULT_CONFIG_FNAME]) := by
  refine ⟨by decide, by decide, ?_⟩
  have hx : fsExists fsConfigIsDir [DEFAULT_CONFIG_FNAME] = true := by decide
  simp [check_config_path, resolvedConfigPath, hx]

/-! Restart injection (`add_restart_to_config`, branch.py lines 39-62). -/

/-- Modelled from the spec: the in-memory form of the configuration file
under the ruamel round-trip YAML representation — a key/value mapping
together with the comments, ordering and multiline-scalar formatting the
round-trip loader preserves. -/
structure YamlDoc where
  mapping : List (String × String)
  formatting : List String
  deriving DecidableEq, Repr

/-- Set a key in an association list, replacing an existing binding in
place or appending a new one. -/
def setAssoc : List (String × String) → String → String → List (String × String)
  | [], key, v => [(key, v)]
  | (key', v') :: rest, key, v =>
    if key' = key then (key, v) :: rest
    else (key', v') :: setAssoc rest key v

/-- Modelled from the spec: `yaml.load` followed by `config['restart'] =
...` and `yaml.dump` with a default-constructed ruamel `YAML()` preserves
comments and formatting — only the mapping changes. -/
def yamlSetKey (d : YamlDoc) (key v : String) : YamlDoc :=
  { d with mapping := setAssoc d.mapping key v }

/-- `add_restart_to_config(restart_path, config_path)` (branch.py lines
39-62).  Returns the resulting configuration-file content, the warnings
issued and the lines printed.  The validity check on line 46 is
`not restart_path.exists() or not restart_path.is_dir()` (both calls
made here); on failure the function returns before touching the file. -/
def add_restart_to_config (fs : FS) (restart_path : FsPath)
    (config : YamlDoc) : YamlDoc × List String × List String :=
  if !(fsExists fs restart_path) || !(fsIsDir fs restart_path) then
    (config,
     ["Given restart directory " ++ pathToString restart_path ++
      " does not exist. Skipping adding 'restart: " ++
      pathToString restart_path ++ "' to config file"],
     [])
  else
    (yamlSetKey config "restart" (pathToString restart_path),
     [],
     ["Added 'restart: " ++ pathToString restart_path ++
      "' to configuration file"])

/-- Claim C5: when the restart path does not exist or is not a directory,
`add_restart_to_config` returns with the configuration content unchanged
and a single warning as the only observable effect; when it is an
existing directory, the configuration is rewritten with the `restart` key
set to the path string, its formatting and comments untouched. -/
theorem c5_add_restart_to_config (fs : FS) (restart_path : FsPath)
    (config : YamlDoc) :
    (¬ (fsExists fs restart_path = true ∧ fsIsDir fs restart_path = true) →
       (add_restart_to_config fs restart_path config).1 = config
       ∧ (add_restart_to_config fs restart_path config).2.1
           = ["Given restart directory " ++ pathToString restart_path ++
              " does not exist. Skipping adding 'restart: " ++
              pathToString restart_path ++ "' to config file"]
       ∧ (add_restart_to_config fs restart_path config).2.2 = [])
    ∧ ((fsExists fs restart_path = true ∧ fsIsDir fs restart_path = true) →
       (add_restart_to_config fs restart_path config).1.formatting
           = config.formatting
       ∧ (add_restart_to_config fs restart_path config).1.mapping
           = setAssoc config.mapping "restart" (pathToString restart_path)
       ∧ (add_restart_to_config fs restart_path config).2.1 = []) := by
  constructor
  · intro h
    have hcond : (!(fsExists fs restart_path) || !(fsIsDir fs restart_path))
        = true := by
      cases hx : fsExists fs restart_path with
      | false => simp
      | true =>
        cases hy : fsIsDir fs restart_path with
        | false => simp
        | true => exact absurd ⟨hx, hy⟩ h
    simp [add_restart_to_config, hcond]
  · rintro ⟨hx, hy⟩
    simp [add_restart_to_config, hx, hy, yamlSetKey]

/-- A filesystem holding a restart directory, and an example config. -/
def fsWithRestart : FS :=
  fun p => if p = ["archive", "restart000"] then some Entry.dir else none

/-- An example configuration document with a comment to preserve. -/
def exampleConfig : YamlDoc :=
  { mapping := [("model", "access-om2")], formatting := ["# my comment"] }

/-- Concrete instance of claim C5: a missing restart path leaves the
config unchanged with one warning; an existing restart directory rewrites
only the mapping. -/
theorem c5_add_restart_to_config_witness :
    ((add_restart_to_config fsWithRestart ["nope"] exampleConfig).1
        = exampleConfig
     ∧ (add_restart_to_config fsWithRestart ["nope"] exampleConfig).2.2 = [])
    ∧ ((add_restart_to_config fsWithRestart ["archive", "restart000"]
          exampleConfig).1.formatting = exampleConfig.formatting
       ∧ (add_restart_to_config fsWithRestart ["archive", "restart000"]
          exampleConfig).1.mapping
           = setAssoc exampleConfig.mapping "restart"
               (pathToString ["archive", "restart000"])) := by
  constructor
  · have h := (c5_add_restart_to_config fsWithRestart ["nope"] exampleConfig).1
      (by decide)
    exact ⟨h.1, h.2.2⟩
  · have h := (c5_add_restart_to_config fsWithRestart ["archive", "restart000"]
      exampleConfig).2 (by decide)
    exact ⟨h.1, h.2.1⟩

/-! The orchestration world: the state `checkout_branch` and `clone` act
on, combining the process state, the repository, the control-directory
filesystem and the observable events of the external collaborators. -/

/-- State threaded through the checkout/clone orchestration.

`branchFs` is modelled from the spec: checking out a branch makes the
working tree (and the surrounding control/laboratory filesystem) that of
the branch.  `controlPathSetting` is modelled from the spec: the
`control_path` setting `read_config` exposes.  `archive_path`,
`work_path` stand for the external Laboratory collaborator's resolved
roots and `experiment_name` for the external Metadata collaborator's
resolved name; `remoteDefaultBranch` is the branch a bare `git clone`
leaves checked out.  `checkouts` and `metadataSetups` record the
invocations of the external `git_checkout_branch` and `metadata.setup`
collaborators. -/
structure World where
  cwd : FsPath
  activeBranch : String
  branchFs : String → FS
  controlPathSetting : FsPath
  remoteDefaultBranch : String
  cloneOk : Bool
  archive_path : FsPath
  work_path : FsPath
  experiment_name : String
  fs : FS
  configDoc : YamlDoc
  printed : List String
  warnings : List String
  checkouts : List (String × Bool × Option String)
  metadataSetups : List (Bool × Bool)
  symlinkSwitches : List (FsPath × FsPath × String × String)

/-- Errors surfaced by the orchestration. -/
inductive PayuError where
  | configNotFound (msg : String) : PayuError
  | osError (e : FsError) : PayuError
  | repositoryError : PayuError
  deriving DecidableEq, Repr

/-- Outcome of an orchestration call: normal return or a raised error,
with the world at that point. -/
inductive COut where
  | ok (w : World) : COut
  | error (e : PayuError) (w : World) : COut

/-- The world carried by an outcome. -/
def COut.world : COut → World
  | .ok w => w
  | .error _ w => w

/-- Whether the call returned normally. -/
def COut.isOk : COut → Bool
  | .ok _ => true
  | .error _ _ => false

/-- Whether the call raised the ConfigNotFound (file-not-found)
condition. -/
def COut.raisedConfigNotFound : COut → Bool
  | .error (.configNotFound _) _ => true
  | _ => false

/-- Modelled from the spec: external collaborator `git_checkout_branch`
(from `payu.git_utils`) — checks out the named branch, creating it from
`start_point` when `is_new_branch`; the repository's active branch
becomes `branch_name` and the filesystem becomes that branch's content. -/
def git_checkout_branch (w : World) (branch_name : String)
    (is_new_branch : Bool) (start_point : Option String) : World :=
  { w with
    activeBranch := branch_name
    fs := w.branchFs branch_name
    checkouts := w.checkouts ++ [(branch_name, is_new_branch, start_point)] }

/-- Modelled from the spec: `get_control_path` (branch.py lines 65-69)
reads the configuration and returns its `control_path` setting. -/
def get_control_path (w : World) : FsPath :=
  w.controlPathSetting

/-- Modelled from the spec: `metadata.setup(keep_uuid, is_new_experiment)`
— the external Metadata collaborator's UUID assignment step; here it is
recorded with the argument pair it was invoked with. -/
def metadataSetup (w : World) (keep_uuid is_new_experiment : Bool) : World :=
  { w with metadataSetups := w.metadataSetups ++ [(keep_uuid, is_new_experiment)] }

/-- The `switch_symlink` call as made by `checkout_branch`, acting on the
world's filesystem and recording the invocation. -/
def switchSymlinkW (w : World) (lab_dir_path control_path : FsPath)
    (experiment_name sym_dir : String) : COut :=
  match switch_symlink w.fs lab_dir_path control_path experiment_name sym_dir with
  | .ok fs2 =>
    .ok { w with
          fs := fs2
          symlinkSwitches := w.symlinkSwitches
            ++ [(lab_dir_path, control_path, experiment_name, sym_dir)] }
  | .err e fs2 =>
    .error (.osError e)
      { w with
        fs := fs2
        symlinkSwitches := w.symlinkSwitches
          ++ [(lab_dir_path, control_path, experiment_name, sym_dir)] }

/-- The pair of symlink switches at the end of `checkout_branch`
(branch.py lines 145-147): first `archive`, then `work`; a raise from
the first aborts the second, a raise from the second propagates. -/
def switchBothSymlinks (w : World) (control_path : FsPath) : COut :=
  match switchSymlinkW w w.archive_path control_path w.experiment_name "archive" with
  | .error e w5 => .error e w5
  | .ok w5 => switchSymlinkW w5 w5.work_path control_path w5.experiment_name "work"

/-- `checkout_branch(...)` (branch.py lines 85-147): resolve the control
path, check out the branch, validate the configuration file on the
now-checked-out branch, run metadata setup with
`is_new_experiment or is_new_branch`, optionally inject the restart path,
then switch the `archive` and `work` symlinks.  `model_type` and
`lab_path` only parametrize the external Laboratory collaborator and are
not modelled. -/
def checkout_branch (w : World) (branch_name : String)
    (is_new_branch is_new_experiment keep_uuid : Bool)
    (start_point : Option String)
    (restart_path config_path control_path : Option FsPath) : COut :=
  -- lines 121-122
  let control_path :=
    match control_path with
    | none => get_control_path w
    | some cp => cp
  -- line 125: checkout branch
  let w1 := git_checkout_branch w branch_name is_new_branch start_point
  -- line 128: check config file exists on checked out branch
  let pr := check_config_path w1.fs config_path
  let w2 := { w1 with printed := w1.printed ++ pr.1 }
  match pr.2 with
  | .error msg => .error (.configNotFound msg) w2
  | .ok _ =>
    -- lines 130-138: Laboratory and Metadata construction, then
    -- is_new_experiment = is_new_experiment or is_new_branch and setup
    let w3 := metadataSetup w2 keep_uuid (is_new_experiment || is_new_branch)
    -- lines 141-142: add restart option to config
    let w4 :=
      match restart_path with
      | some rp =>
        let r := add_restart_to_config w3.fs rp w3.configDoc
        { w3 with
          configDoc := r.1
          warnings := w3.warnings ++ r.2.1
          printed := w3.printed ++ r.2.2 }
      | none => w3
    -- lines 145-147: switch archive then work symlinks
    switchBothSymlinks w4 control_path

/-- Modelled from the spec: external collaborator `git_clone(repository,
directory, branch)` — clones the repository into the directory, leaving
checked out `branch` when given, else the remote's default branch; a
failure of the underlying git layer propagates as a RepositoryError
before any working-directory change. -/
def git_clone (w : World) (repository : String) (directory : FsPath)
    (branch : Option String) : COut :=
  if w.cloneOk then
    let b :=
      match branch with
      | some b => b
      | none => w.remoteDefaultBranch
    .ok { w with activeBranch := b, fs := w.branchFs b }
  else
    .error .repositoryError w

/-- Modelled from the spec: `get_git_branch` returns the repository's
currently active branch. -/
def get_git_branch (w : World) : String :=
  w.activeBranch

/-- The `finally` block and final print of `clone` (branch.py lines
241-245): whatever the checkout produced, restore the original working
directory; print the change-directory hint only on the normal path. -/
def cloneFinalize (r : COut) (owd directory : FsPath) : COut :=
  match r with
  | .ok w3 =>
    .ok { w3 with
          cwd := owd
          printed := w3.printed ++
            ["To change directory to control directory run:  cd "
              ++ pathToString directory] }
  | .error e w3 => .error e { w3 with cwd := owd }

/-- `clone(...)` (branch.py lines 169-245): clone, then a scoped change
of working directory around the checkout (`try`/`finally` restoring the
original directory on every exit path), then the final hint print on the
normal path only.  `directory.resolve()` is modelled as the identity on
an already-absolute directory. -/
def clone (w : World) (repository : String) (directory : FsPath)
    (branch new_branch_name : Option String) (keep_uuid : Bool)
    (config_path restart_path : Option FsPath) : COut :=
  -- lines 206-210
  match git_clone w repository directory branch with
  | .error e w1 => .error e w1
  | .ok w1 =>
    -- line 212: owd = os.getcwd()
    let owd := w1.cwd
    -- line 215: os.chdir(control_path)
    let w2 := { w1 with cwd := directory }
    let r :=
      match new_branch_name with
      | some new_branch =>
        -- lines 218-227: create and checkout new branch
        checkout_branch w2 new_branch true false keep_uuid none
          restart_path config_path (some directory)
      | none =>
        -- lines 229-240: checkout existing branch, defaulting to the
        -- repository's active branch, forcing is_new_experiment
        let branch2 :=
          match branch with
          | none => get_git_branch w2
          | some b => b
        checkout_branch w2 branch2 false true keep_uuid none
          restart_path config_path (some directory)
    -- lines 241-245: finally change back to original working directory,
    -- then print the hint on the normal path
    cloneFinalize r owd directory

/-! Lemmas about the orchestration steps. -/

theorem switchSymlinkW_metadataSetups (w : World) (a b : FsPath) (c d : String) :
    (switchSymlinkW w a b c d).world.metadataSetups = w.metadataSetups := by
  unfold switchSymlinkW
  cases switch_symlink w.fs a b c d <;> rfl

theorem switchSymlinkW_checkouts (w : World) (a b : FsPath) (c d : String) :
    (switchSymlinkW w a b c d).world.checkouts = w.checkouts := by
  unfold switchSymlinkW
  cases switch_symlink w.fs a b c d <;> rfl

theorem switchBothSymlinks_err {w : World} {cp : FsPath} {e : PayuError}
    {w5 : World}
    (h : switchSymlinkW w w.archive_path cp w.experiment_name "archive"
      = .error e w5) :
    switchBothSymlinks w cp = .error e w5 := by
  unfold switchBothSymlinks
  rw [h]

theorem switchBothSymlinks_ok {w : World} {cp : FsPath} {w5 : World}
    (h : switchSymlinkW w w.archive_path cp w.experiment_name "archive"
      = .ok w5) :
    switchBothSymlinks w cp
      = switchSymlinkW w5 w5.work_path cp w5.experiment_name "work" := by
  unfold switchBothSymlinks
  rw [h]

theorem switchBothSymlinks_metadataSetups (w : World) (cp : FsPath) :
    (switchBothSymlinks w cp).world.metadataSetups = w.metadataSetups := by
  cases h1 : switchSymlinkW w w.archive_path cp w.experiment_name "archive" with
  | error e w5 =>
    rw [switchBothSymlinks_err h1]
    have ha := switchSymlinkW_metadataSetups w w.archive_path cp w.experiment_name "archive"
    rw [h1] at ha
    exact ha
  | ok w5 =>
    rw [switchBothSymlinks_ok h1]
    have ha := switchSymlinkW_metadataSetups w w.archive_path cp w.experiment_name "archive"
    rw [h1] at ha
    simp only [COut.world] at ha
    rw [switchSymlinkW_metadataSetups w5 w5.work_path cp w5.experiment_name "work"]
    exact ha

theorem switchBothSymlinks_checkouts (w : World) (cp : FsPath) :
    (switchBothSymlinks w cp).world.checkouts = w.checkouts := by
  cases h1 : switchSymlinkW w w.archive_path cp w.experiment_name "archive" with
  | error e w5 =>
    rw [switchBothSymlinks_err h1]
    have ha := switchSymlinkW_checkouts w w.archive_path cp w.experiment_name "archive"
    rw [h1] at ha
    exact ha
  | ok w5 =>
    rw [switchBothSymlinks_ok h1]
    have ha := switchSymlinkW_checkouts w w.archive_path cp w.experiment_name "archive"
    rw [h1] at ha
    simp only [COut.world] at ha
    rw [switchSymlinkW_checkouts w5 w5.work_path cp w5.experiment_name "work"]
    exact ha

/-- The metadata-setup log after `checkout_branch`: one invocation with
`(keep_uuid, is_new_experiment or is_new_branch)` appended when the
checked-out branch carries the configuration file, untouched otherwise. -/
theorem checkout_branch_metadataSetups (w : World)
    (branch_name : String) (is_new_branch is_new_experiment keep_uuid : Bool)
    (start_point : Option String)
    (restart_path config_path control_path : Option FsPath) :
    (checkout_branch w branch_name is_new_branch is_new_experiment keep_uuid
        start_point restart_path config_path control_path).world.metadataSetups
      = if fsExists (w.branchFs branch_name) (resolvedConfigPath config_path) then
          w.metadataSetups ++ [(keep_uuid, is_new_experiment || is_new_branch)]
        else
          w.metadataSetups := by
  simp only [checkout_branch, git_checkout_branch, get_control_path]
  cases hc : fsExists (w.branchFs branch_name) (resolvedConfigPath config_path) with
  | false =>
    rw [check_config_path_fail hc]
    simp [COut.world]
  | true =>
    rw [check_config_path_ok hc]
    cases restart_path with
    | none =>
      rw [switchBothSymlinks_metadataSetups]
      simp [metadataSetup]
    | some rp =>
      rw [switchBothSymlinks_metadataSetups]
      simp [metadataSetup]

/-- `checkout_branch` always logs exactly one branch-checkout invocation,
with the branch name, new-branch flag and start point as given. -/
theorem checkout_branch_checkouts (w : World)
    (branch_name : String) (is_new_branch is_new_experiment keep_uuid : Bool)
    (start_point : Option String)
    (restart_path config_path control_path : Option FsPath) :
    (checkout_branch w branch_name is_new_branch is_new_experiment keep_uuid
        start_point restart_path config_path control_path).world.checkouts
      = w.checkouts ++ [(branch_name, is_new_branch, start_point)] := by
  simp only [checkout_branch, git_checkout_branch, get_control_path]
  cases hc : fsExists (w.branchFs branch_name) (resolvedConfigPath config_path) with
  | false =>
    rw [check_config_path_fail hc]
    simp [COut.world]
  | true =>
    rw [check_config_path_ok hc]
    cases restart_path with
    | none =>
      rw [switchBothSymlinks_checkouts]
      simp [metadataSetup]
    | some rp =>
      rw [switchBothSymlinks_checkouts]
      simp [metadataSetup]

/-! Claim C2: checkout of a branch without a configuration file. -/

/-- Claim C2: checking out a branch whose tree lacks the configuration
file raises the ConfigNotFound condition after printing the multi-line
remediation message; the active branch has nevertheless been switched,
and neither metadata setup, restart injection nor symlink switching has
run. -/
theorem c2_checkout_missing_config (w : World) (branch_name : String)
    (is_new_branch is_new_experiment keep_uuid : Bool)
    (start_point : Option String)
    (restart_path config_path control_path : Option FsPath)
    (hmiss : fsExists (w.branchFs branch_name)
      (resolvedConfigPath config_path) = false) :
    (checkout_branch w branch_name is_new_branch is_new_experiment keep_uuid
        start_point restart_path config_path control_path).raisedConfigNotFound
      = true
    ∧ (checkout_branch w branch_name is_new_branch is_new_experiment keep_uuid
        start_point restart_path config_path control_path).world.activeBranch
      = branch_name
    ∧ (checkout_branch w branch_name is_new_branch is_new_experiment keep_uuid
        start_point restart_path config_path control_path).world.printed
      = w.printed ++ [NO_CONFIG_FOUND_MESSAGE]
    ∧ (checkout_branch w branch_name is_new_branch is_new_experiment keep_uuid
        start_point restart_path config_path control_path).world.metadataSetups
      = w.metadataSetups
    ∧ (checkout_branch w branch_name is_new_branch is_new_experiment keep_uuid
        start_point restart_path config_path control_path).world.configDoc
      = w.configDoc
    ∧ (checkout_branch w branch_name is_new_branch is_new_experiment keep_uuid
        start_point restart_path config_path control_path).world.symlinkSwitches
      = w.symlinkSwitches := by
  simp only [checkout_branch, git_checkout_branch, get_control_path]
  rw [check_config_path_fail hmiss]
  simp [COut.world, COut.raisedConfigNotFound]

/-- The empty filesystem. -/
def emptyFS : FS := fun _ => none

/-- A working tree holding only the configuration file. -/
def fsConfigOnly : FS :=
  fun p => if p = [DEFAULT_CONFIG_FNAME] then some Entry.file else none

/-- A concrete world: branch `main` carries a config file, any other
branch carries nothing. -/
def w0 : World :=
  { cwd := ["home", "user"]
    activeBranch := "main"
    branchFs := fun b => if b = "main" then fsConfigOnly else emptyFS
    controlPathSetting := ["ctrl"]
    remoteDefaultBranch := "main"
    cloneOk := true
    archive_path := ["lab", "archive"]
    work_path := ["lab", "work"]
    experiment_name := "expt1"
    fs := emptyFS
    configDoc := exampleConfig
    printed := []
    warnings := []
    checkouts := []
    metadataSetups := []
    symlinkSwitches := [] }

/-- Concrete instance of claim C2: checking out branch `control`, which
has no config file, raises after printing, switches the branch and runs
nothing else. -/
theorem c2_checkout_missing_config_witness :
    (checkout_branch w0 "control" false false false none none none
        (some ["ctrl"])).raisedConfigNotFound = true
    ∧ (checkout_branch w0 "control" false false false none none none
        (some ["ctrl"])).world.activeBranch = "control"
    ∧ (checkout_branch w0 "control" false false false none none none
        (some ["ctrl"])).world.printed = w0.printed ++ [NO_CONFIG_FOUND_MESSAGE]
    ∧ (checkout_branch w0 "control" false false false none none none
        (some ["ctrl"])).world.metadataSetups = w0.metadataSetups
    ∧ (checkout_branch w0 "control" false false false none none none
        (some ["ctrl"])).world.configDoc = w0.configDoc
    ∧ (checkout_branch w0 "control" false false false none none none
        (some ["ctrl"])).world.symlinkSwitches = w0.symlinkSwitches :=
  c2_checkout_missing_config w0 "control" false false false none none none
    (some ["ctrl"]) (by decide)

/-! Claim C3: the metadata-setup invocation. -/

/-- Claim C3: on the path that reaches it, metadata setup is invoked
exactly once, with `keep_uuid` passed through unchanged and
`is_new_experiment` equal to `is_new_experiment or is_new_branch`. -/
theorem c3_metadata_setup_once (w : World) (branch_name : String)
    (is_new_branch is_new_experiment keep_uuid : Bool)
    (start_point : Option String)
    (restart_path config_path control_path : Option FsPath)
    (hconf : fsExists (w.branchFs branch_name)
      (resolvedConfigPath config_path) = true) :
    (checkout_branch w branch_name is_new_branch is_new_experiment keep_uuid
        start_point restart_path config_path control_path).world.metadataSetups
      = w.metadataSetups ++ [(keep_uuid, is_new_experiment || is_new_branch)] := by
  rw [checkout_branch_metadataSetups, if_pos hconf]

/-- Concrete instance of claim C3: a new-branch checkout of `main` logs
one setup invocation with the new-experiment flag forced on. -/
theorem c3_metadata_setup_once_witness :
    (checkout_branch w0 "main" true false true none none none
        (some ["ctrl"])).world.metadataSetups
      = w0.metadataSetups ++ [(true, false || true)] :=
  c3_metadata_setup_once w0 "main" true false true none none none
    (some ["ctrl"]) (by decide)

theorem cloneFinalize_cwd (r : COut) (owd directory : FsPath) :
    (cloneFinalize r owd directory).world.cwd = owd := by
  cases r <;> rfl

theorem cloneFinalize_checkouts (r : COut) (owd directory : FsPath) :
    (cloneFinalize r owd directory).world.checkouts = r.world.checkouts := by
  cases r <;> rfl

theorem cloneFinalize_metadataSetups (r : COut) (owd directory : FsPath) :
    (cloneFinalize r owd directory).world.metadataSetups
      = r.world.metadataSetups := by
  cases r <;> rfl

/-! Claim C4: clone restores the working directory. -/

/-- Claim C4: whatever `clone` does — return normally, fail to clone, or
raise from the checkout partway — the working directory on exit equals
the one observed immediately before the call. -/
theorem c4_clone_restores_cwd (w : World) (repository : String)
    (directory : FsPath) (branch new_branch_name : Option String)
    (keep_uuid : Bool) (config_path restart_path : Option FsPath) :
    (clone w repository directory branch new_branch_name keep_uuid
        config_path restart_path).world.cwd = w.cwd := by
  simp only [clone, git_clone]
  by_cases hc : w.cloneOk
  · rw [if_pos hc]
    simp only []
    rw [cloneFinalize_cwd]
  · rw [if_neg hc]
    simp [COut.world]

/-! Claim C8: clone without a new branch name. -/

/-- Claim C8: a clone with no new branch name and no branch argument
checks out the repository's (post-clone) active branch — the remote's
default — and invokes the checkout with `is_new_experiment = true`, so
the single metadata-setup invocation carries `(keep_uuid, true)`. -/
theorem c8_clone_existing_branch (w : World) (repository : String)
    (directory : FsPath) (keep_uuid : Bool)
    (config_path restart_path : Option FsPath)
    (hclone : w.cloneOk = true)
    (hconf : fsExists (w.branchFs w.remoteDefaultBranch)
      (resolvedConfigPath config_path) = true) :
    (clone w repository directory none none keep_uuid config_path
        restart_path).world.checkouts
      = w.checkouts ++ [(w.remoteDefaultBranch, false, none)]
    ∧ (clone w repository directory none none keep_uuid config_path
        restart_path).world.metadataSetups
      = w.metadataSetups ++ [(keep_uuid, true)] := by
  simp only [clone, git_clone, get_git_branch]
  rw [if_pos hclone]
  simp only []
  constructor
  · rw [cloneFinalize_checkouts, checkout_branch_checkouts]
  · rw [cloneFinalize_metadataSetups, checkout_branch_metadataSetups]
    simp [hconf]

/-- Concrete instance of claim C8: a bare clone of `w0` checks out
`main` (the remote default) and logs a metadata setup with the
new-experiment flag set. -/
theorem c8_clone_existing_branch_witness :
    (clone w0 "url" ["clone", "dir"] none none false none
        none).world.checkouts = w0.checkouts ++ [("main", false, none)]
    ∧ (clone w0 "url" ["clone", "dir"] none none false none
        none).world.metadataSetups = w0.metadataSetups ++ [(false, true)] :=
  c8_clone_existing_branch w0 "url" ["clone", "dir"] false none none
    (by decide) (by decide)

/-! Branch listing (`print_branch_metadata` and `list_branches`,
branch.py lines 248-321). -/

/-- The UUID field name: modelled from the spec, the `UUID_FIELD`
cross-component constant owned by `payu.metadata`. -/
def UUID_FIELD : String := "uuid"

/-- A committed blob's content: its raw text lines, together with the
key/value mapping that the YAML parse of those lines yields (the parse
itself is the external ruamel collaborator, modelled from the spec). -/
structure BlobContent where
  lines : List String
  mapping : List (String × String)
  deriving DecidableEq, Repr

/-- A blob of a branch's commit tree: a committed file, readable without
a checkout. -/
structure Blob where
  name : String
  content : BlobContent
  deriving DecidableEq, Repr

/-- A git branch: its full ref path (which distinguishes a local branch
from a remote branch of the same name, and is what GitPython's `Head`
equality compares), its display name, and its commit-tree blobs. -/
structure GitBranch where
  refName : String
  name : String
  blobs : List Blob
  deriving DecidableEq, Repr

/-- Association-list lookup, as ruamel's `mapping.get(key, None)`. -/
def lookupAssoc : List (String × String) → String → Option String
  | [], _ => none
  | (key', v) :: rest, key => if key' = key then some v else lookupAssoc rest key

/-- The blob scan of `print_branch_metadata` (branch.py lines 262-270):
one pass over the commit tree's blobs, recording whether a
`config.yaml` blob is present and the content of the (last)
`metadata.yaml` blob. -/
def blobScanStep (acc : Bool × Option BlobContent) (blob : Blob) :
    Bool × Option BlobContent :=
  ((if blob.name = "config.yaml" then true else acc.1),
   (if blob.name = "metadata.yaml" then some blob.content else acc.2))

/-- `print_branch_metadata(branch, verbose)` (branch.py lines 248-289),
as the list of lines it prints. -/
def print_branch_metadata (branch : GitBranch) (verbose : Bool) :
    List String :=
  let scanned := branch.blobs.foldl blobScanStep (false, none)
  if !scanned.1 then
    ["    No config file found"]
  else
    match scanned.2 with
    | none => ["    No metadata file found"]
    | some content =>
      if verbose then
        content.lines.map (fun line => "    " ++ line)
      else
        match lookupAssoc content.mapping UUID_FIELD with
        | some uuid => ["    " ++ UUID_FIELD ++ ": " ++ uuid]
        | none => ["    No UUID in metadata file"]

/-- A repository as `list_branches` sees it: the active branch and the
(insertion-ordered) local and remote branch dictionaries. -/
structure Repo where
  active : GitBranch
  localBranches : List GitBranch
  remoteBranches : List GitBranch

/-- `list_branches(config_path, verbose, remote)` (branch.py lines
292-321), as the list of lines it prints: the current branch header and
summary first, then each branch of the chosen dictionary, skipping any
branch equal to the active branch (`branch != current_branch` compares
ref paths). -/
def list_branches (repo : Repo) (verbose remote : Bool) : List String :=
  ("* Current Branch: " ++ repo.active.name)
    :: (print_branch_metadata repo.active verbose
        ++ (if remote then repo.remoteBranches else repo.localBranches).flatMap
            (fun branch =>
              if branch.refName ≠ repo.active.refName then
                ((if remote then "Remote Branch" else "Branch")
                    ++ ": " ++ branch.name)
                  :: print_branch_metadata branch verbose
              else []))

/-- The non-verbose per-branch summary as the claim states it: `No
config file found` when the tree has no config blob; else `No metadata
file found` when it has no metadata blob; else the UUID field, or `No
UUID in metadata file` when that field is absent. -/
def branchSummarySpec (branch : GitBranch) : List String :=
  if !(branch.blobs.any (fun blob => blob.name = "config.yaml")) then
    ["    No config file found"]
  else
    match branch.blobs.reverse.find? (fun blob => blob.name = "metadata.yaml") with
    | none => ["    No metadata file found"]
    | some blob =>
      match lookupAssoc blob.content.mapping UUID_FIELD with
      | some uuid => ["    " ++ UUID_FIELD ++ ": " ++ uuid]
      | none => ["    No UUID in metadata file"]

theorem blobScan_fst (blobs : List Blob) (cc : Bool) (mc : Option BlobContent) :
    (blobs.foldl blobScanStep (cc, mc)).1
      = (cc || blobs.any (fun blob => blob.name = "config.yaml")) := by
  induction blobs generalizing cc mc with
  | nil => simp
  | cons b bs ih =>
    rw [List.foldl_cons, List.any_cons, ih]
    by_cases hb : b.name = "config.yaml" <;> simp [blobScanStep, hb, Bool.or_assoc]

theorem blobScan_snd (blobs : List Blob) (cc : Bool) (mc : Option BlobContent) :
    (blobs.foldl blobScanStep (cc, mc)).2
      = match blobs.reverse.find? (fun blob => blob.name = "metadata.yaml") with
        | some blob => some blob.content
        | none => mc := by
  induction blobs generalizing cc mc with
  | nil => simp
  | cons b bs ih =>
    rw [List.foldl_cons, List.reverse_cons, List.find?_append, ih]
    cases hf : bs.reverse.find? (fun blob => blob.name = "metadata.yaml") with
    | some bl => simp [hf, Option.or]
    | none =>
      by_cases hb : b.name = "metadata.yaml" <;>
        simp [hf, Option.or, List.find?, blobScanStep, hb]

/-- The non-verbose branch summary printed by the source equals the
claim-shaped summary. -/
theorem print_branch_metadata_eq_spec (branch : GitBranch) :
    print_branch_metadata branch false = branchSummarySpec branch := by
  simp only [print_branch_metadata, branchSummarySpec]
  rw [blobScan_fst, blobScan_snd]
  simp only [Bool.false_or, Bool.false_eq_true, if_false]
  cases hf : branch.blobs.reverse.find? (fun blob => blob.name = "metadata.yaml") with
  | none => rfl
  | some bl => rfl

/-! Claim C9: the branch listing. -/

/-- Claim C9: `list_branches` (in the non-verbose mode whose summaries
the claim describes) prints the active branch's summary first, then each
branch of the chosen set in order, skipping any branch equal to the
active one, each with the claim's config/metadata/UUID summary. -/
theorem c9_list_branches_output (repo : Repo) (remote : Bool) :
    list_branches repo false remote
      = ("* Current Branch: " ++ repo.active.name)
        :: (branchSummarySpec repo.active
            ++ (if remote then repo.remoteBranches else repo.localBranches).flatMap
                (fun branch =>
                  if branch.refName ≠ repo.active.refName then
                    ((if remote then "Remote Branch" else "Branch")
                        ++ ": " ++ branch.name)
                      :: branchSummarySpec branch
                  else [])) := by
  unfold list_branches
  simp only [print_branch_metadata_eq_spec]

end PayuBranch
